import Mathlib

/-!
Verification development for the configuration-search core of the
model_analyzer repository.

The definitions below are shallow embeddings of the Python sources under
src/model_analyzer.  Python dictionaries are modelled as association lists
over String keys that preserve insertion order, Python heterogeneous values
as the inductive type JVal, and Python None as JVal.null.  Each definition
carries a comment pointing to the function it embeds.
-/

namespace ModelAnalyzer

/-- Heterogeneous Python values as they appear in model configuration
dictionaries: None, booleans, integers, strings, lists and dicts. -/
inductive JVal where
  | null : JVal
  | bool (b : Bool) : JVal
  | num (n : Int) : JVal
  | str (s : String) : JVal
  | arr (elems : List JVal) : JVal
  | obj (fields : List (String × JVal)) : JVal
deriving Repr

/-- True exactly on the embedding of Python None; embeds the test
value is None / value is not None. -/
def JVal.isNull : JVal → Bool
  | .null => true
  | _ => false

/-- Dictionary lookup, first binding wins (Python dicts have unique keys). -/
def assocFind {α : Type} : List (String × α) → String → Option α
  | [], _ => none
  | (k0, v0) :: rest, k => if k0 = k then some v0 else assocFind rest k

/-- Python dict assignment d[k] = v: replace in place when the key exists
(keeping its position), append otherwise. -/
def assocSet {α : Type} : List (String × α) → String → α → List (String × α)
  | [], k, v => [(k, v)]
  | (k0, v0) :: rest, k, v =>
      if k0 = k then (k0, v) :: rest else (k0, v0) :: assocSet rest k v

/-- A param combo as passed to BaseModelConfigGenerator methods.  The three
constructors model Python reference identity, which the source inspects:
pyNone is the Python object None, defaultCombo is the class-level shared
sentinel BaseModelConfigGenerator.DEFAULT_PARAM_COMBO (an empty dict), and
custom l is any other dict object, including an empty dict that is a
distinct object from the sentinel. -/
inductive ParamCombo where
  | pyNone : ParamCombo
  | defaultCombo : ParamCombo
  | custom (items : List (String × JVal)) : ParamCombo
deriving Repr

/-- The dict items of a param combo (the sentinel is an empty dict). -/
def ParamCombo.items : ParamCombo → List (String × JVal)
  | .pyNone => []
  | .defaultCombo => []
  | .custom l => l

/-- A model variant name.  The source builds the f-strings
base_config_default and base_config_k (decimal index k); the two
constructors keep the interpolation data of those strings.  The string
encoding is injective (the literal suffix default never collides with a
decimal numeral), so distinctness of ConfigName values coincides with
distinctness of the emitted name strings. -/
inductive ConfigName where
  | defaultName (base : String) : ConfigName
  | indexedName (base : String) (k : Nat) : ConfigName
deriving Repr, DecidableEq

/-- Embeds BaseModelConfigGenerator._get_model_variant_name.  The state is
the per-generator counter self._model_name_index; the result pairs the
produced name with the updated counter.  The branch tests identity with
the DEFAULT_PARAM_COMBO sentinel, not structural equality. -/
def get_model_variant_name (base : String) (combo : ParamCombo) (k : Nat) :
    ConfigName × Nat :=
  match combo with
  | .defaultCombo => (.defaultName base, k)
  | _ => (.indexedName base k, k + 1)

/-- Embeds the overlay loop of
BaseModelConfigGenerator._make_direct_mode_model_config:
for key, value in param_combo.items(): if value is not None:
model_config_dict[key] = value.  A plain per-key dict assignment; no
recursion into nested dict values. -/
def apply_param_combo (base : List (String × JVal))
    (items : List (String × JVal)) : List (String × JVal) :=
  items.foldl (fun d kv => if kv.2.isNull then d else assocSet d kv.1 kv.2) base

/-- Embeds BaseModelConfigGenerator._make_direct_mode_model_config: load the
base dict, overlay the param combo per key (skipped entirely when the combo
is Python None), then assign the variant name.  The name is kept in a
separate field of the result; the counter is threaded through. -/
def make_direct_mode_model_config (baseName : String)
    (base : List (String × JVal)) (combo : ParamCombo) (k : Nat) :
    (List (String × JVal) × ConfigName) × Nat :=
  let d :=
    match combo with
    | .pyNone => base
    | c => apply_param_combo base c.items
  let nk := get_model_variant_name baseName combo k
  ((d, nk.1), nk.2)

mutual

/-- Modelled from the spec: deep_merge(base, overlay) of GeneratorUtils
(generator_utils.py is not part of the sources given).  Recursive
overwrite: when both sides at a key are maps, recurse; otherwise overlay
replaces base wholesale.  Returns a new map; inputs unchanged. -/
def deep_merge : JVal → JVal → JVal
  | .obj bs, .obj os => .obj (deep_merge_fields bs os)
  | _, o => o
termination_by _b o => sizeOf o
decreasing_by all_goals (simp_wf; try omega)

/-- Modelled from the spec: key-by-key part of deep_merge over the fields
of the overlay map. -/
def deep_merge_fields (bs : List (String × JVal)) :
    List (String × JVal) → List (String × JVal)
  | [] => bs
  | (k, v) :: rest =>
      let merged :=
        match assocFind bs k with
        | some bv => assocSet bs k (deep_merge bv v)
        | none => bs ++ [(k, v)]
      deep_merge_fields merged rest
termination_by os => sizeOf os
decreasing_by all_goals (simp_wf; try omega)

end

/-! ## Automatic model config generator

Embeds automatic_model_config_generator.py together with the pieces of its
base class base_model_config_generator.py that it inherits.  The generator
state collects the instance fields; measurements handed back through
set_last_results are lists, one entry per model, each entry a list whose
elements are a measurement object or Python None, so they are embedded as
values of type List (List (Option m)) for an opaque measurement type m. -/

/-- Constructor parameters read from the CLI config by
AutomaticModelConfigGenerator.__init__.  There is no minimum instance
count parameter in the source. -/
structure AutoParams where
  maxInstanceCount : Nat
  maxModelBatchSize : Nat
  minModelBatchSize : Nat
  cpuOnly : Bool
deriving Repr, DecidableEq

/-- self._instance_kind: KIND_CPU iff the model is flagged CPU only. -/
def AutoParams.instanceKind (p : AutoParams) : String :=
  if p.cpuOnly then "KIND_CPU" else "KIND_GPU"

/-- Mutable instance state of AutomaticModelConfigGenerator (including the
_live and _last_results fields of the base class). -/
structure AutoState (m : Type) where
  live : Bool
  stateMachineStarted : Bool
  currInstanceCount : Nat
  currMaxBatchSize : Nat
  lastResults : List (List (Option m))

/-- State right after __init__: counters zero, default combo not yet
emitted, no results yet. -/
def initialAutoState (m : Type) : AutoState m :=
  { live := false
    stateMachineStarted := false
    currInstanceCount := 0
    currMaxBatchSize := 0
    lastResults := [] }

/-- Embeds BaseModelConfigGenerator.set_last_results (stores the
measurement batch). -/
def auto_set_last_results (s : AutoState m) (ms : List (List (Option m))) :
    AutoState m :=
  { s with lastResults := ms }

/-- Embeds AutomaticModelConfigGenerator._last_results_erroneous: true when
any measurement entry of any result in the last batch is None. -/
def last_results_erroneous (rs : List (List (Option m))) : Bool :=
  rs.any fun result => result.any fun measurement => measurement.isNone

/-- Embeds _max_batch_size_limit_reached. -/
def max_batch_size_limit_reached (p : AutoParams) (s : AutoState m) : Bool :=
  decide (s.currMaxBatchSize * 2 > p.maxModelBatchSize)

/-- Embeds _done_walking_max_batch_size. -/
def done_walking_max_batch_size (p : AutoParams) (s : AutoState m) : Bool :=
  max_batch_size_limit_reached p s || last_results_erroneous s.lastResults

/-- Embeds _done_walking_instance_count. -/
def done_walking_instance_count (p : AutoParams) (s : AutoState m) : Bool :=
  decide (s.currInstanceCount ≥ p.maxInstanceCount)

/-- Embeds _done_walking. -/
def done_walking (p : AutoParams) (s : AutoState m) : Bool :=
  done_walking_max_batch_size p s && done_walking_instance_count p s

/-- Embeds BaseModelConfigGenerator.is_done: the _live latch conjoined with
the subclass _done_walking predicate. -/
def auto_is_done (p : AutoParams) (s : AutoState m) : Bool :=
  s.live && done_walking p s

/-- Embeds _start_state_machine: sets the started flag and initialises the
counters; the instance count starts at the literal 1. -/
def start_state_machine (p : AutoParams) (s : AutoState m) : AutoState m :=
  { s with
    stateMachineStarted := true
    currInstanceCount := 1
    currMaxBatchSize := p.minModelBatchSize }

/-- Embeds _step_max_batch_size. -/
def step_max_batch_size (s : AutoState m) : AutoState m :=
  { s with currMaxBatchSize := s.currMaxBatchSize * 2 }

/-- Embeds _step_instance_count. -/
def step_instance_count (s : AutoState m) : AutoState m :=
  { s with currInstanceCount := s.currInstanceCount + 1 }

/-- Embeds _reset_max_batch_size. -/
def reset_max_batch_size (p : AutoParams) (s : AutoState m) : AutoState m :=
  { s with currMaxBatchSize := p.minModelBatchSize }

/-- Embeds _step_state_machine: on batch-size exhaustion reset the batch
size and advance the instance count, otherwise double the batch size. -/
def step_state_machine (p : AutoParams) (s : AutoState m) : AutoState m :=
  if done_walking_max_batch_size p s then
    step_instance_count (reset_max_batch_size p s)
  else
    step_max_batch_size s

/-- Embeds _step: start the state machine on the first step after the
default emission, afterwards step it. -/
def auto_step (p : AutoParams) (s : AutoState m) : AutoState m :=
  if s.stateMachineStarted then step_state_machine p s else start_state_machine p s

/-- Embeds _get_curr_param_combo: the shared DEFAULT_PARAM_COMBO sentinel
before the state machine starts, afterwards a fresh dict with
dynamic_batching, max_batch_size and instance_group. -/
def get_curr_param_combo (p : AutoParams) (s : AutoState m) : ParamCombo :=
  if ¬ s.stateMachineStarted then .defaultCombo
  else
    .custom
      [("dynamic_batching", .obj []),
       ("max_batch_size", .num s.currMaxBatchSize),
       ("instance_group",
        .arr [.obj [("count", .num s.currInstanceCount),
                    ("kind", .str p.instanceKind)]])]

/-- The driver loop of the search (tests/test_model_config_generator.py and
ConfigGeneratorFactory callers): repeatedly pull a candidate from
next_config and stop as soon as is_done is true.  Since next_config sets
_live on its first resume and then alternates yield and _step, the emitted
candidates after the first one are the combos of the states reached from
started states while _done_walking stays false.  auto_sweep is that suffix
of the emission trace, for a run whose feedback is never erroneous (the
hypotheses carry the facts that make the Python loop terminate: a positive
batch size and non-erroneous last results). -/
def auto_sweep (p : AutoParams) (hp : 1 ≤ p.minModelBatchSize)
    (s : AutoState m) (hbs : 1 ≤ s.currMaxBatchSize)
    (herr : last_results_erroneous s.lastResults = false) : List ParamCombo :=
  get_curr_param_combo p s ::
    (if hd : done_walking p s = true then []
     else
       auto_sweep p hp (step_state_machine p s)
         (by
           unfold step_state_machine step_instance_count reset_max_batch_size
             step_max_batch_size
           split
           · exact hp
           · simp only []
             omega)
         (by
           unfold step_state_machine step_instance_count reset_max_batch_size
             step_max_batch_size
           split <;> exact herr))
termination_by
  (p.maxInstanceCount + 1 - s.currInstanceCount,
   p.maxModelBatchSize + 1 - s.currMaxBatchSize)
decreasing_by
  unfold step_state_machine step_instance_count reset_max_batch_size step_max_batch_size
  by_cases hbsd : done_walking_max_batch_size p s = true
  · have hic : done_walking_instance_count p s = false := by
      revert hd
      unfold done_walking
      cases _hic : done_walking_instance_count p s <;> simp [hbsd]
    have : s.currInstanceCount < p.maxInstanceCount := by
      revert hic
      unfold done_walking_instance_count
      intro hic
      simpa using hic
    simp only [if_pos hbsd]
    exact Prod.Lex.left _ _ (by simp; omega)
  · have : ¬ s.currMaxBatchSize * 2 > p.maxModelBatchSize := by
      revert hbsd
      unfold done_walking_max_batch_size max_batch_size_limit_reached
      intro hbsd
      simp [herr] at hbsd
      omega
    simp only [if_neg hbsd]
    exact Prod.Lex.right _ (by omega)

/-- The full emission trace of one automatic-mode generator run with
non-erroneous feedback: the first pulled candidate is the combo of the
fresh (not yet started) state, every later one comes from auto_sweep of
the started state machine. -/
def auto_emitted (m : Type) (p : AutoParams) (hp : 1 ≤ p.minModelBatchSize) :
    List ParamCombo :=
  get_curr_param_combo p ({ initialAutoState m with live := true }) ::
    auto_sweep p hp (auto_step p ({ initialAutoState m with live := true }))
      (by simp [auto_step, initialAutoState, start_state_machine, hp])
      (by simp [auto_step, initialAutoState, start_state_machine,
                last_results_erroneous])

/-- Modelled from the spec: the power-of-two ladder between min_bs and
max_bs used by the spec to count batch levels (generator_utils.py is not
part of the sources given): the values min_bs, 2 min_bs, 4 min_bs and so
on, capped at max_bs. -/
def power_of_two_ladder_between (minBs maxBs : Nat) : List Nat :=
  if minBs = 0 ∨ maxBs < minBs then []
  else minBs :: power_of_two_ladder_between (minBs * 2) maxBs
termination_by maxBs + 1 - minBs
decreasing_by omega

/-! ## Perf analyzer config generator

Embeds the feedback-driven part of perf_analyzer_config_generator.py.  The
generated perf configs themselves are opaque here (type c); a measurement
is embedded as its perf_throughput metric value, a rational, since
get_metric_value applied to perf_throughput is the only reading the
generator performs.  The threshold THROUGHPUT_GAIN is imported by the
source from model_analyzer.constants (not among the sources given), so it
is kept as a parameter tau. -/

/-- Mutable state of PerfAnalyzerConfigGenerator: the eagerly materialised
config list, the running index, the last measurement batch and the full
history.  In __init__ the last-results field holds a one-element sentinel
list (the string valid in the source), only ever tested for emptiness;
its embedded initial value is the singleton list containing 0. -/
structure PerfGenState (c : Type) where
  configs : List c
  currConfigIndex : Nat
  lastResults : List ℚ
  allResults : List ℚ

/-- State right after __init__ (with the already generated config list). -/
def initialPerfGenState (cs : List c) : PerfGenState c :=
  { configs := cs
    currConfigIndex := 0
    lastResults := [0]
    allResults := [] }

/-- Embeds PerfAnalyzerConfigGenerator.next_config: returns the config at
the current index and advances the index. -/
def perf_next_config (s : PerfGenState c) : Option c × PerfGenState c :=
  (s.configs.get? s.currConfigIndex, { s with currConfigIndex := s.currConfigIndex + 1 })

/-- Embeds PerfAnalyzerConfigGenerator.set_last_results: stores the batch
and extends the history. -/
def perf_set_last_results (s : PerfGenState c) (ms : List ℚ) : PerfGenState c :=
  { s with lastResults := ms, allResults := s.allResults ++ ms }

/-- Python negative indexing a[-i] for i ≥ 1 (valid whenever i ≤ len a). -/
def negGet (l : List ℚ) (i : Nat) : ℚ :=
  l.getD (l.length - i) 0

/-- Embeds _calculate_throughput_gain: relative gain of the measurement at
negative index i over the one before it. -/
def calculate_throughput_gain (s : PerfGenState c) (i : Nat) : ℚ :=
  (negGet s.allResults i - negGet s.allResults (i + 1)) / negGet s.allResults (i + 1)

/-- Embeds _throughput_gain_valid: vacuously true below 4 measurements,
afterwards true when any of the last three relative gains exceeds the
threshold. -/
def throughput_gain_valid (tau : ℚ) (s : PerfGenState c) : Bool :=
  if s.allResults.length < 4 then true
  else
    decide (calculate_throughput_gain s 1 > tau) ||
      decide (calculate_throughput_gain s 2 > tau) ||
        decide (calculate_throughput_gain s 3 > tau)

/-- Embeds _all_configs_returned. -/
def all_configs_returned (s : PerfGenState c) : Bool :=
  decide (s.configs.length = s.currConfigIndex)

/-- Embeds PerfAnalyzerConfigGenerator._last_results_erroneous: the Python
truthiness test not self._last_results. -/
def perf_last_results_erroneous (s : PerfGenState c) : Bool :=
  s.lastResults.isEmpty

/-- Embeds PerfAnalyzerConfigGenerator.is_done. -/
def perf_is_done (tau : ℚ) (s : PerfGenState c) : Bool :=
  all_configs_returned s || perf_last_results_erroneous s ||
    !throughput_gain_valid tau s

/-! ## Constraint manager

Embeds ConstraintManager.check_constraints of result/constraint_manager.py.
A metric record is embedded as its type tag together with its scalar value;
a constraint dict as optional min and max bounds; the constraints argument
as an optional dict from metric tag to constraint, where Option.none embeds
the Python value None (the Python truthiness test treats None and the empty
dict alike). -/

/-- One metric inside a measurement: the class tag and the value. -/
structure MetricRecord where
  tag : String
  value : ℚ

/-- One constraint dict: optional min and max bounds. -/
structure MetricConstraint where
  lo : Option ℚ
  hi : Option ℚ

/-- Embeds the body of the metric loop: a metric violates its constraint
when its tag is among the constraints and its value falls below min or
above max. -/
def metric_violates (cs : List (String × MetricConstraint)) (mr : MetricRecord) : Bool :=
  match assocFind cs mr.tag with
  | none => false
  | some con =>
      (match con.lo with
       | some lo => decide (mr.value < lo)
       | none => false) ||
        (match con.hi with
         | some hi => decide (mr.value > hi)
         | none => false)

/-- Embeds ConstraintManager.check_constraints.  The measurement data is the
per-model list of metric lists returned by run_config_measurement.data();
the early returns of the nested loops amount to: fail exactly when some
metric violates its constraint. -/
def check_constraints (constraints : Option (List (String × MetricConstraint)))
    (data : List (List MetricRecord)) : Bool :=
  match constraints with
  | none => true
  | some cs =>
      if cs.isEmpty then true
      else !(data.any fun modelMetrics => modelMetrics.any (metric_violates cs))

/-! ## Run config generator

Embeds run_config_generator.py.  The Python constructor builds
curr_results as the list literal containing the empty list, multiplied by
the number of models: num_models references to one shared list object.
The embedding makes the heap explicit: cells is the store of list objects,
ptrs maps each model index to its cell, and delivered logs, per model, the
batches passed to that model generator through set_last_results.  The
inner ModelRunConfigGenerator objects (model_run_config_generator.py is
not among the sources given) are abstracted by the oracle genDone, giving
the is_done answer of generator i as a function of the feedback batches it
has received. -/

/-- Heap-explicit state of the RunConfigGenerator feedback plumbing. -/
structure RCGState (m : Type) where
  cells : List (List m)
  ptrs : List Nat
  delivered : List (List (List m))

/-- State after __init__ for n models: one shared empty cell referenced by
every model index, no feedback delivered yet. -/
def initialRCGState (m : Type) (n : Nat) : RCGState m :=
  { cells := [[]]
    ptrs := List.replicate n 0
    delivered := List.replicate n [] }

/-- Embeds _update_results_for_all_generators: extend, for each model index
in order, the list object its slot points at (all slots may alias one
cell). -/
def update_results_for_all_generators (ms : List m) (st : RCGState m) : RCGState m :=
  { st with
    cells :=
      (List.range st.ptrs.length).foldl
        (fun cells i =>
          let j := st.ptrs.getD i 0
          cells.set j (cells.getD j [] ++ ms))
        st.cells }

/-- Embeds _send_results_to_appropriate_generators for the list of model
indices still to visit (the loop runs over reversed(range(num_models))).
Per index: pass the queued batch to that model generator, rebind the slot
to a fresh empty list object, and continue outward only if the generator
is done after consuming. -/
def send_results_to_appropriate_generators (genDone : Nat → List (List m) → Bool) :
    List Nat → RCGState m → RCGState m
  | [], st => st
  | i :: rest, st =>
      let batch := st.cells.getD (st.ptrs.getD i 0) []
      let newLog := st.delivered.getD i [] ++ [batch]
      let st2 : RCGState m :=
        { cells := st.cells ++ [[]]
          ptrs := st.ptrs.set i st.cells.length
          delivered := st.delivered.set i newLog }
      if genDone i newLog then
        send_results_to_appropriate_generators genDone rest st2
      else st2

/-- Embeds RunConfigGenerator.set_last_results: queue the batch for every
generator, then drain innermost-first with the early break. -/
def rcg_set_last_results (genDone : Nat → List (List m) → Bool) (ms : List m)
    (st : RCGState m) : RCGState m :=
  send_results_to_appropriate_generators genDone
    (List.range st.ptrs.length).reverse
    (update_results_for_all_generators ms st)

/-- A run config: the shared runtime environment plus the per-model slots,
as assembled by _make_run_config (environment type e and model run config
type a are opaque). -/
structure RunConfig (e a : Type) where
  tritonEnv : e
  modelRunConfigs : List a

/-- Embeds _make_run_config: RunConfig(self._triton_env) followed by
add_model_run_config for every slot. -/
def make_run_config (env : e) (slots : List a) : RunConfig e a :=
  { tritonEnv := env, modelRunConfigs := slots }

/-- Embeds _determine_triton_server_env: read the environment of the first
model, compare every model against it, raise (none) on any mismatch,
otherwise return the shared environment.  On an empty model list the
Python code fails with an index error before any comparison; the embedding
also returns none there, and every theorem about this function assumes a
nonempty model list. -/
def determine_triton_server_env [DecidableEq e] : List e → Option e
  | [] => none
  | e0 :: rest =>
      if (e0 :: rest).all fun x => decide (x = e0) then some e0 else none

/-! ## Naming trace -/

/-- The sequence of variant names produced by repeated
_get_model_variant_name calls for a sequence of emitted param combos,
starting from counter value k. -/
def name_trace (base : String) (k : Nat) : List ParamCombo → List ConfigName
  | [] => []
  | combo :: rest =>
      let nk := get_model_variant_name base combo k
      nk.1 :: name_trace base nk.2 rest

/-! # Theorems -/

/-! ## Helper lemmas about the automatic state machine -/

lemma done_walking_max_batch_size_iff (p : AutoParams) (s : AutoState m) :
    done_walking_max_batch_size p s = true ↔
      (p.maxModelBatchSize < s.currMaxBatchSize * 2 ∨
        last_results_erroneous s.lastResults = true) := by
  simp [done_walking_max_batch_size, max_batch_size_limit_reached]

lemma step_state_machine_of_exhausted (p : AutoParams) (s : AutoState m)
    (h : done_walking_max_batch_size p s = true) :
    step_state_machine p s =
      { s with
        currInstanceCount := s.currInstanceCount + 1
        currMaxBatchSize := p.minModelBatchSize } := by
  unfold step_state_machine step_instance_count reset_max_batch_size
  rw [if_pos h]

lemma step_state_machine_of_not_exhausted (p : AutoParams) (s : AutoState m)
    (h : done_walking_max_batch_size p s = false) :
    step_state_machine p s =
      { s with currMaxBatchSize := s.currMaxBatchSize * 2 } := by
  unfold step_state_machine step_max_batch_size
  rw [if_neg (by simp [h])]

/-! ## C5 and C6 -/

/-- C5: after initialisation, a step of the automatic state machine resets
max_batch_size to min_bs and increments instance_count when the batch-size
axis is exhausted (doubling would exceed max_bs, or the last results
contain a None entry), and otherwise doubles max_batch_size leaving
instance_count unchanged. -/
theorem claim5_step_state_machine (p : AutoParams) (s : AutoState m)
    (hstarted : s.stateMachineStarted = true) :
    auto_step p s = step_state_machine p s ∧
    ((p.maxModelBatchSize < s.currMaxBatchSize * 2 ∨
        last_results_erroneous s.lastResults = true) →
      (step_state_machine p s).currMaxBatchSize = p.minModelBatchSize ∧
      (step_state_machine p s).currInstanceCount = s.currInstanceCount + 1) ∧
    (¬ (p.maxModelBatchSize < s.currMaxBatchSize * 2 ∨
        last_results_erroneous s.lastResults = true) →
      (step_state_machine p s).currMaxBatchSize = s.currMaxBatchSize * 2 ∧
      (step_state_machine p s).currInstanceCount = s.currInstanceCount) := by
  refine ⟨by simp [auto_step, hstarted], ?_, ?_⟩
  · intro h
    rw [step_state_machine_of_exhausted p s
      ((done_walking_max_batch_size_iff p s).mpr h)]
    exact ⟨rfl, rfl⟩
  · intro h
    have hb : done_walking_max_batch_size p s = false := by
      cases hb : done_walking_max_batch_size p s
      · rfl
      · exact absurd ((done_walking_max_batch_size_iff p s).mp hb) h
    rw [step_state_machine_of_not_exhausted p s hb]
    exact ⟨rfl, rfl⟩

/-- C5 witness: a concrete started state below the batch-size cap, for
which the step doubles the batch size and keeps the instance count. -/
theorem claim5_step_state_machine_witness :
    (({ live := true, stateMachineStarted := true, currInstanceCount := 3,
        currMaxBatchSize := 4, lastResults := [] } :
          AutoState Unit).stateMachineStarted = true) ∧
    ((step_state_machine
        { maxInstanceCount := 5, maxModelBatchSize := 16,
          minModelBatchSize := 1, cpuOnly := false }
        ({ live := true, stateMachineStarted := true, currInstanceCount := 3,
           currMaxBatchSize := 4, lastResults := [] } :
             AutoState Unit)).currMaxBatchSize = 4 * 2 ∧
      (step_state_machine
        { maxInstanceCount := 5, maxModelBatchSize := 16,
          minModelBatchSize := 1, cpuOnly := false }
        ({ live := true, stateMachineStarted := true, currInstanceCount := 3,
           currMaxBatchSize := 4, lastResults := [] } :
             AutoState Unit)).currInstanceCount = 3) :=
  ⟨rfl,
    (claim5_step_state_machine
      { maxInstanceCount := 5, maxModelBatchSize := 16,
        minModelBatchSize := 1, cpuOnly := false }
      { live := true, stateMachineStarted := true, currInstanceCount := 3,
        currMaxBatchSize := 4, lastResults := [] }
      rfl).2.2 (by simp [last_results_erroneous])⟩

/-- C6: the automatic generator is done exactly when it is live (has been
advanced at least once), the instance count has reached the maximum and
the batch-size axis at the current instance count is exhausted. -/
theorem claim6_auto_is_done_iff (p : AutoParams) (s : AutoState m) :
    auto_is_done p s = true ↔
      (s.live = true ∧ p.maxInstanceCount ≤ s.currInstanceCount ∧
        (p.maxModelBatchSize < s.currMaxBatchSize * 2 ∨
          last_results_erroneous s.lastResults = true)) := by
  simp [auto_is_done, done_walking, done_walking_max_batch_size,
        done_walking_instance_count, max_batch_size_limit_reached,
        Bool.and_eq_true, and_assoc]
  tauto

/-! ## C9 -/

/-- C9: the default name is assigned by object identity with the shared
DEFAULT_PARAM_COMBO sentinel: any other dict object, including an empty
dict that is a distinct object, gets an indexed name and bumps the
counter; only the sentinel gets the default name and leaves the counter
alone.  The automatic generator passes the sentinel itself before the
state machine starts. -/
theorem claim9_default_recognised_by_identity (base : String) (k : Nat) :
    (∀ items, get_model_variant_name base (.custom items) k =
        (.indexedName base k, k + 1)) ∧
    get_model_variant_name base (.custom []) k = (.indexedName base k, k + 1) ∧
    get_model_variant_name base .defaultCombo k = (.defaultName base, k) ∧
    (∀ p : AutoParams, ∀ m : Type,
      get_curr_param_combo p (initialAutoState m) = .defaultCombo) :=
  ⟨fun _ => rfl, rfl, rfl, fun _ _ => rfl⟩

/-! ## C10 -/

lemma metric_violates_iff (cs : List (String × MetricConstraint))
    (mr : MetricRecord) :
    metric_violates cs mr = true ↔
      ∃ con, assocFind cs mr.tag = some con ∧
        ((∃ lo, con.lo = some lo ∧ mr.value < lo) ∨
          (∃ hi, con.hi = some hi ∧ hi < mr.value)) := by
  unfold metric_violates
  cases hfind : assocFind cs mr.tag with
  | none => simp
  | some con =>
      obtain ⟨lo, hi⟩ := con
      cases lo <;> cases hi <;> simp [hfind]

/-- C10: check_constraints accepts every measurement when the constraints
are None or empty, and otherwise rejects exactly when some metric whose
tag appears among the constraints falls strictly below the min bound or
strictly above the max bound; metrics with tags not among the constraints
are never checked (they cannot cause rejection). -/
theorem claim10_check_constraints (cs : List (String × MetricConstraint))
    (data : List (List MetricRecord)) :
    check_constraints none data = true ∧
    check_constraints (some []) data = true ∧
    (check_constraints (some cs) data = false ↔
      ∃ row ∈ data, ∃ mr ∈ row, ∃ con,
        assocFind cs mr.tag = some con ∧
        ((∃ lo, con.lo = some lo ∧ mr.value < lo) ∨
          (∃ hi, con.hi = some hi ∧ hi < mr.value))) := by
  refine ⟨rfl, rfl, ?_⟩
  unfold check_constraints
  cases cs with
  | nil =>
      simp [assocFind]
  | cons c rest =>
      simp [List.any_eq_true, metric_violates_iff]

/-! ## C7 -/

/-- C7: constructing a RunConfigGenerator fails (raises the fatal analyzer
exception in _determine_triton_server_env) exactly when the runtime
environments of the co-located models are not pairwise equal; on success
the shared environment is the common one and is carried into every
assembled RunConfig. -/
theorem claim7_environment_coherence {e : Type} [DecidableEq e]
    (envs : List e) (hne : envs ≠ []) :
    (determine_triton_server_env envs = none ↔
      ¬ ∀ a ∈ envs, ∀ b ∈ envs, a = b) ∧
    (∀ env, determine_triton_server_env envs = some env →
      (∀ a ∈ envs, a = env) ∧
      ∀ (a : Type) (slots : List a), (make_run_config env slots).tritonEnv = env) := by
  obtain ⟨e0, rest, rfl⟩ : ∃ e0 rest, envs = e0 :: rest := by
    cases envs with
    | nil => exact absurd rfl hne
    | cons e0 rest => exact ⟨e0, rest, rfl⟩
  constructor
  · simp only [determine_triton_server_env]
    by_cases hall : ∀ a ∈ e0 :: rest, a = e0
    · rw [if_pos (by simpa [List.all_eq_true] using hall)]
      refine iff_of_false (by simp) (not_not_intro ?_)
      intro a ha b hb
      rw [hall a ha, hall b hb]
    · rw [if_neg (by simpa [List.all_eq_true] using hall)]
      refine iff_of_true rfl ?_
      intro hpair
      exact hall fun a ha => hpair a ha e0 (by simp)
  · intro env henv
    simp only [determine_triton_server_env] at henv
    by_cases hall : ∀ a ∈ e0 :: rest, a = e0
    · rw [if_pos (by simpa [List.all_eq_true] using hall)] at henv
      obtain rfl : e0 = env := by injection henv
      exact ⟨hall, fun _ _ => rfl⟩
    · rw [if_neg (by simpa [List.all_eq_true] using hall)] at henv
      exact absurd henv (by simp)

/-- C7 witness: two distinct environments make construction fail; the
nonemptiness hypothesis is discharged on the concrete list. -/
theorem claim7_environment_coherence_witness :
    (([0, 1] : List Nat) ≠ []) ∧
    ((determine_triton_server_env ([0, 1] : List Nat) = none ↔
      ¬ ∀ a ∈ ([0, 1] : List Nat), ∀ b ∈ ([0, 1] : List Nat), a = b) ∧
    (∀ env, determine_triton_server_env ([0, 1] : List Nat) = some env →
      (∀ a ∈ ([0, 1] : List Nat), a = env) ∧
      ∀ (a : Type) (slots : List a),
        (make_run_config env slots).tritonEnv = env)) :=
  ⟨by decide, claim7_environment_coherence ([0, 1] : List Nat) (by decide)⟩

/-! ## C4 -/

/-- C4: the load-level generator is done exactly when the config index has
reached the number of generated configs, or the batch passed to the most
recent set_last_results call was empty, or at least 4 measurements have
accumulated and each of the three most recent relative throughput gains is
at most the threshold.  The second conjunct ties the lastResults field to
the most recent set_last_results argument. -/
theorem claim4_perf_is_done_iff (tau : ℚ) {c : Type} (s : PerfGenState c) :
    (perf_is_done tau s = true ↔
      (s.currConfigIndex = s.configs.length ∨ s.lastResults = [] ∨
        (4 ≤ s.allResults.length ∧
          calculate_throughput_gain s 1 ≤ tau ∧
          calculate_throughput_gain s 2 ≤ tau ∧
          calculate_throughput_gain s 3 ≤ tau))) ∧
    ∀ ms, (perf_set_last_results s ms).lastResults = ms := by
  refine ⟨?_, fun ms => rfl⟩
  unfold perf_is_done all_configs_returned perf_last_results_erroneous
    throughput_gain_valid
  by_cases h4 : s.allResults.length < 4
  · have hn4 : ¬ (4 ≤ s.allResults.length) := by omega
    simp [h4, List.isEmpty_iff, hn4]
    rw [eq_comm]
  · have h4p : 4 ≤ s.allResults.length := by omega
    simp [h4, List.isEmpty_iff, h4p, not_lt]
    tauto

/-! ## C2: the emitted config is built by shallow per-key overwrite, not by
deep_merge.  The repository's own tests (test_search_dynamic_batching_
subparameter and test_apply_value_to_dict in
tests/test_model_config_generator.py) expect the deep-merge behaviour the
spec describes: a dynamic_batching subparameter present in the base config
must survive the automatic-search overlay dynamic_batching mapped to the
empty dict.  The code in _make_direct_mode_model_config instead assigns
each overlay key wholesale, dropping the subparameter. -/

/-- C2: at the base config of test_search_dynamic_batching_subparameter
(max_batch_size 4, one GPU instance, dynamic_batching with
max_queue_delay_microseconds 100) and the param combo the automatic
generator emits at instance count 1 and batch size 8, the code replaces
the dynamic_batching value by the empty dict, while deep_merge of the same
base and overlay keeps the max_queue_delay_microseconds subparameter, as
the spec and the tests require.  The first conjunct checks that the
overlay really is the automatic generator combo at that state. -/
theorem claim2_shallow_overlay_drops_subparameters :
    (get_curr_param_combo
        { maxInstanceCount := 4, maxModelBatchSize := 8,
          minModelBatchSize := 8, cpuOnly := false }
        ({ live := true, stateMachineStarted := true, currInstanceCount := 1,
           currMaxBatchSize := 8, lastResults := [] } : AutoState Unit) =
      .custom
        [("dynamic_batching", .obj []),
         ("max_batch_size", .num 8),
         ("instance_group",
          .arr [.obj [("count", .num 1), ("kind", .str "KIND_GPU")]])]) ∧
    (assocFind
      (make_direct_mode_model_config "my-model"
        [("max_batch_size", .num 4),
         ("instance_group",
          .arr [.obj [("kind", .str "KIND_GPU"), ("count", .num 1)]]),
         ("dynamic_batching", .obj [("max_queue_delay_microseconds", .num 100)])]
        (.custom
          [("dynamic_batching", .obj []),
           ("max_batch_size", .num 8),
           ("instance_group",
            .arr [.obj [("count", .num 1), ("kind", .str "KIND_GPU")]])])
        0).1.1
      "dynamic_batching" = some (.obj [])) ∧
    (deep_merge
      (.obj
        [("max_batch_size", .num 4),
         ("instance_group",
          .arr [.obj [("kind", .str "KIND_GPU"), ("count", .num 1)]]),
         ("dynamic_batching", .obj [("max_queue_delay_microseconds", .num 100)])])
      (.obj
        [("dynamic_batching", .obj []),
         ("max_batch_size", .num 8),
         ("instance_group",
          .arr [.obj [("count", .num 1), ("kind", .str "KIND_GPU")]])]) =
      .obj
        [("max_batch_size", .num 8),
         ("instance_group",
          .arr [.obj [("count", .num 1), ("kind", .str "KIND_GPU")]]),
         ("dynamic_batching",
          .obj [("max_queue_delay_microseconds", .num 100)])]) := by
  refine ⟨rfl, rfl, ?_⟩
  simp [deep_merge, deep_merge_fields, assocFind, assocSet]

/-! ## C3: the per-model pending feedback queues alias one shared list.

RunConfigGenerator.__init__ builds curr_results as the literal list of one
empty list multiplied by num_models, which in Python gives num_models
references to a single list object; _update_results_for_all_generators
then extends that one object once per model index.  The spec requires each
batch to be enqueued exactly once per model. -/

/-- C3: with two co-located models and one set_last_results call carrying
the single measurement 0, the innermost generator receives the batch
twice: the delivered log at index 1 is the one batch list containing 0
twice, not once as the claim requires. -/
theorem claim3_aliased_queue_duplicates_feedback :
    ((rcg_set_last_results (fun _ _ => false) [0]
        (initialRCGState Nat 2)).delivered.getD 1 []) = [[0, 0]] ∧
    ((rcg_set_last_results (fun _ _ => false) [0]
        (initialRCGState Nat 2)).delivered.getD 1 []) ≠ [[0]] := by
  refine ⟨by decide, by decide⟩

/-! ## Helper lemmas for the emission count of the automatic generator -/

lemma step_sm_lastResults (p : AutoParams) (s : AutoState m) :
    (step_state_machine p s).lastResults = s.lastResults := by
  unfold step_state_machine step_instance_count reset_max_batch_size step_max_batch_size
  split <;> rfl

lemma step_sm_started (p : AutoParams) (s : AutoState m) :
    (step_state_machine p s).stateMachineStarted = s.stateMachineStarted := by
  unfold step_state_machine step_instance_count reset_max_batch_size step_max_batch_size
  split <;> rfl

lemma step_sm_bs_pos (p : AutoParams) (s : AutoState m)
    (hp : 1 ≤ p.minModelBatchSize) (hbs : 1 ≤ s.currMaxBatchSize) :
    1 ≤ (step_state_machine p s).currMaxBatchSize := by
  unfold step_state_machine step_instance_count reset_max_batch_size step_max_batch_size
  split
  · exact hp
  · simp only []
    omega

lemma done_walking_iff (p : AutoParams) (s : AutoState m) :
    done_walking p s = true ↔
      (done_walking_max_batch_size p s = true ∧
        p.maxInstanceCount ≤ s.currInstanceCount) := by
  simp [done_walking, done_walking_instance_count, Bool.and_eq_true]

lemma auto_sweep_done (p : AutoParams) (hp : 1 ≤ p.minModelBatchSize)
    (s : AutoState m) (hbs : 1 ≤ s.currMaxBatchSize)
    (herr : last_results_erroneous s.lastResults = false)
    (hd : done_walking p s = true) :
    auto_sweep p hp s hbs herr = [get_curr_param_combo p s] := by
  rw [auto_sweep.eq_def, dif_pos hd]

lemma auto_sweep_cons (p : AutoParams) (hp : 1 ≤ p.minModelBatchSize)
    (s : AutoState m) (hbs : 1 ≤ s.currMaxBatchSize)
    (herr : last_results_erroneous s.lastResults = false)
    (hd : ¬ done_walking p s = true)
    (hbs2 : 1 ≤ (step_state_machine p s).currMaxBatchSize)
    (herr2 : last_results_erroneous (step_state_machine p s).lastResults = false) :
    auto_sweep p hp s hbs herr =
      get_curr_param_combo p s ::
        auto_sweep p hp (step_state_machine p s) hbs2 herr2 := by
  rw [auto_sweep.eq_def, dif_neg hd]

lemma power_of_two_ladder_between_length (maxBs : Nat) :
    ∀ (n bs : Nat), 1 ≤ bs → bs ≤ maxBs → maxBs + 1 - bs ≤ n →
      (power_of_two_ladder_between bs maxBs).length =
        Nat.log 2 (maxBs / bs) + 1 := by
  intro n
  induction n with
  | zero => intro bs h1 h2 h3; omega
  | succ n ih =>
      intro bs h1 h2 h3
      rw [power_of_two_ladder_between.eq_def, if_neg (by omega)]
      by_cases hcap : maxBs < bs * 2
      · rw [power_of_two_ladder_between.eq_def (bs * 2) maxBs,
          if_pos (Or.inr hcap)]
        have hdiv : maxBs / bs < 2 := by
          rw [Nat.div_lt_iff_lt_mul (by omega)]
          omega
        simp [Nat.log_of_lt hdiv]
      · push_neg at hcap
        have hrec := ih (bs * 2) (by omega) (by omega) (by omega)
        simp only [List.length_cons, hrec]
        have h2div : 2 ≤ maxBs / bs :=
          (Nat.le_div_iff_mul_le (by omega)).mpr (by omega)
        have hlog := Nat.log_of_one_lt_of_le Nat.one_lt_two h2div
        rw [Nat.div_div_eq_div_mul] at hlog
        omega

lemma auto_sweep_length {m : Type} (p : AutoParams) (hp : 1 ≤ p.minModelBatchSize) :
    ∀ (n : Nat) (s : AutoState m) (hbs : 1 ≤ s.currMaxBatchSize)
      (herr : last_results_erroneous s.lastResults = false),
      s.currInstanceCount ≤ p.maxInstanceCount →
      (p.maxInstanceCount - s.currInstanceCount) * (p.maxModelBatchSize + 2) +
        (p.maxModelBatchSize + 1 - s.currMaxBatchSize) ≤ n →
      (auto_sweep p hp s hbs herr).length =
        Nat.log 2 (p.maxModelBatchSize / s.currMaxBatchSize) + 1 +
          (p.maxInstanceCount - s.currInstanceCount) *
            (Nat.log 2 (p.maxModelBatchSize / p.minModelBatchSize) + 1) := by
  intro n
  induction n with
  | zero =>
      intro s hbs herr hinst hm
      have hbscap : p.maxModelBatchSize + 1 - s.currMaxBatchSize = 0 := by omega
      have hprod : (p.maxInstanceCount - s.currInstanceCount) *
          (p.maxModelBatchSize + 2) = 0 := by omega
      have hinst0 : p.maxInstanceCount - s.currInstanceCount = 0 := by
        rcases Nat.mul_eq_zero.mp hprod with h | h
        · exact h
        · omega
      have hd : done_walking p s = true := by
        rw [done_walking_iff]
        refine ⟨(done_walking_max_batch_size_iff p s).mpr (Or.inl (by omega)), by omega⟩
      rw [auto_sweep_done p hp s hbs herr hd]
      have hdiv : p.maxModelBatchSize / s.currMaxBatchSize = 0 :=
        Nat.div_eq_of_lt (by omega)
      simp [hdiv, hinst0]
  | succ n ih =>
      intro s hbs herr hinst hm
      by_cases hd : done_walking p s = true
      · rw [auto_sweep_done p hp s hbs herr hd]
        rw [done_walking_iff] at hd
        obtain ⟨hdbs, hge⟩ := hd
        rw [done_walking_max_batch_size_iff] at hdbs
        have hbslim : p.maxModelBatchSize < s.currMaxBatchSize * 2 := by
          rcases hdbs with h | h
          · exact h
          · rw [herr] at h
            cases h
        have hdiv : p.maxModelBatchSize / s.currMaxBatchSize < 2 := by
          rw [Nat.div_lt_iff_lt_mul (by omega)]
          omega
        have hinst0 : p.maxInstanceCount - s.currInstanceCount = 0 := by omega
        simp [Nat.log_of_lt hdiv, hinst0]
      · have herr2 : last_results_erroneous (step_state_machine p s).lastResults = false := by
          rw [step_sm_lastResults]
          exact herr
        rw [auto_sweep_cons p hp s hbs herr hd (step_sm_bs_pos p s hp hbs) herr2]
        simp only [List.length_cons]
        by_cases hdbs : done_walking_max_batch_size p s = true
        · -- batch axis exhausted, instance count steps
          have hlt : s.currInstanceCount < p.maxInstanceCount := by
            by_contra hge
            exact hd (by rw [done_walking_iff]; exact ⟨hdbs, by omega⟩)
          have hstep := step_state_machine_of_exhausted p s hdbs
          have hfi : (step_state_machine p s).currInstanceCount =
              s.currInstanceCount + 1 := by rw [hstep]
          have hfb : (step_state_machine p s).currMaxBatchSize =
              p.minModelBatchSize := by rw [hstep]
          obtain ⟨q, hq⟩ : ∃ q, p.maxInstanceCount - s.currInstanceCount = q + 1 :=
            ⟨p.maxInstanceCount - s.currInstanceCount - 1, by omega⟩
          have hq2 : p.maxInstanceCount - (s.currInstanceCount + 1) = q := by omega
          have hexp : (q + 1) * (p.maxModelBatchSize + 2) =
              q * (p.maxModelBatchSize + 2) + (p.maxModelBatchSize + 2) := by ring
          have hrec := ih (step_state_machine p s) (step_sm_bs_pos p s hp hbs) herr2
            (by omega) (by rw [hfi, hfb, hq2]; rw [hq, hexp] at hm; omega)
          rw [hrec, hfi, hfb, hq2, hq]
          -- the current batch axis is exhausted, so its remaining ladder is one
          have hbslim : p.maxModelBatchSize < s.currMaxBatchSize * 2 := by
            rcases (done_walking_max_batch_size_iff p s).mp hdbs with h | h
            · exact h
            · rw [herr] at h
              cases h
          have hdiv : p.maxModelBatchSize / s.currMaxBatchSize < 2 := by
            rw [Nat.div_lt_iff_lt_mul (by omega)]
            omega
          have hKexp : (q + 1) * (Nat.log 2 (p.maxModelBatchSize / p.minModelBatchSize) + 1) =
              q * (Nat.log 2 (p.maxModelBatchSize / p.minModelBatchSize) + 1) +
                (Nat.log 2 (p.maxModelBatchSize / p.minModelBatchSize) + 1) := by ring
          rw [Nat.log_of_lt hdiv]
          omega
        · -- batch axis not exhausted, batch size doubles
          have hnb : p.maxModelBatchSize ≥ s.currMaxBatchSize * 2 := by
            by_contra hnb
            exact hdbs ((done_walking_max_batch_size_iff p s).mpr (Or.inl (by omega)))
          have hstep := step_state_machine_of_not_exhausted p s
            (by cases h : done_walking_max_batch_size p s
                · rfl
                · exact absurd h hdbs)
          have hfi : (step_state_machine p s).currInstanceCount =
              s.currInstanceCount := by rw [hstep]
          have hfb : (step_state_machine p s).currMaxBatchSize =
              s.currMaxBatchSize * 2 := by rw [hstep]
          have hrec := ih (step_state_machine p s) (step_sm_bs_pos p s hp hbs) herr2
            (by omega) (by rw [hfi, hfb]; omega)
          rw [hrec, hfi, hfb]
          have h2div : 2 ≤ p.maxModelBatchSize / s.currMaxBatchSize :=
            (Nat.le_div_iff_mul_le (by omega)).mpr (by omega)
          have hlog := Nat.log_of_one_lt_of_le Nat.one_lt_two h2div
          rw [Nat.div_div_eq_div_mul] at hlog
          omega

lemma auto_step_initial (p : AutoParams) (m : Type) :
    auto_step p ({ initialAutoState m with live := true }) =
      { live := true, stateMachineStarted := true, currInstanceCount := 1,
        currMaxBatchSize := p.minModelBatchSize, lastResults := [] } := by
  simp [auto_step, initialAutoState, start_state_machine]

lemma auto_emitted_length (m : Type) (p : AutoParams)
    (hp : 1 ≤ p.minModelBatchSize) (hinst : 1 ≤ p.maxInstanceCount) :
    (auto_emitted m p hp).length =
      p.maxInstanceCount *
        (Nat.log 2 (p.maxModelBatchSize / p.minModelBatchSize) + 1) + 1 := by
  unfold auto_emitted
  simp only [List.length_cons]
  have h1 : (auto_step p ({ initialAutoState m with live := true })).currInstanceCount = 1 := by
    rw [auto_step_initial]
  have h2 : (auto_step p ({ initialAutoState m with live := true })).currMaxBatchSize =
      p.minModelBatchSize := by
    rw [auto_step_initial]
  have hrec := auto_sweep_length p hp
    ((p.maxInstanceCount - 1) * (p.maxModelBatchSize + 2) +
      (p.maxModelBatchSize + 1 - p.minModelBatchSize))
    (auto_step p ({ initialAutoState m with live := true }))
    (by rw [h2]; exact hp)
    (by rw [auto_step_initial]; simp [last_results_erroneous])
    (by omega)
    (by rw [h1, h2])
  rw [hrec, h1, h2]
  obtain ⟨t, ht⟩ : ∃ t, p.maxInstanceCount = t + 1 :=
    ⟨p.maxInstanceCount - 1, by omega⟩
  have ht2 : p.maxInstanceCount - 1 = t := by omega
  have hexp : (t + 1) * (Nat.log 2 (p.maxModelBatchSize / p.minModelBatchSize) + 1) =
      t * (Nat.log 2 (p.maxModelBatchSize / p.minModelBatchSize) + 1) +
        (Nat.log 2 (p.maxModelBatchSize / p.minModelBatchSize) + 1) := by ring
  rw [ht2, ht]
  omega

/-! ## C1 -/

/-- C1 counterexample: the claim predicts, for instance-count bounds
min_inst = max_inst = 2 and batch-size bounds min_bs = max_bs = 1, exactly
(2 - 2 + 1) times K plus 1 = 2 candidates; the generator has no minimum
instance count input at all and emits 3 candidates (default, instance 1,
instance 2). -/
theorem claim1_counterexample :
    (auto_emitted Unit
      { maxInstanceCount := 2, maxModelBatchSize := 1,
        minModelBatchSize := 1, cpuOnly := false } (Nat.le_refl 1)).length = 3 ∧
    (auto_emitted Unit
      { maxInstanceCount := 2, maxModelBatchSize := 1,
        minModelBatchSize := 1, cpuOnly := false } (Nat.le_refl 1)).length ≠
      (2 - 2 + 1) *
        (power_of_two_ladder_between 1 1).length + 1 := by
  have hlen := auto_emitted_length Unit
    { maxInstanceCount := 2, maxModelBatchSize := 1,
      minModelBatchSize := 1, cpuOnly := false } (Nat.le_refl 1) (by decide)
  have hlad : (power_of_two_ladder_between 1 1).length = 1 := by
    rw [power_of_two_ladder_between_length 1 1 1 (by omega) (by omega) (by omega)]
    simp
  have hlog : Nat.log 2 (1 / 1) = 0 := by
    simp [Nat.log_one_right]
  rw [hlog] at hlen
  constructor
  · rw [hlen]
    decide
  · rw [hlen, hlad]
    decide

/-- C1 (amended): the automatic state machine initialises instance_count
to the literal 1 on its second step (the source has no minimum instance
count input) and sweeps instance_count over 1..max_inst, so with
1 ≤ min_bs ≤ max_bs, 1 ≤ max_inst and never-erroneous feedback the
generator emits exactly max_inst times K plus 1 candidates, where K is the
number of power-of-two ladder steps from min_bs capped by max_bs (the
plus 1 being the default probe, emitted first). -/
theorem claim1_auto_candidate_count (m : Type) (p : AutoParams)
    (hp : 1 ≤ p.minModelBatchSize)
    (hle : p.minModelBatchSize ≤ p.maxModelBatchSize)
    (hinst : 1 ≤ p.maxInstanceCount) :
    (∀ s : AutoState m, (start_state_machine p s).currInstanceCount = 1) ∧
    (auto_emitted m p hp).length =
      p.maxInstanceCount *
        (power_of_two_ladder_between p.minModelBatchSize p.maxModelBatchSize).length
        + 1 := by
  refine ⟨fun s => rfl, ?_⟩
  rw [auto_emitted_length m p hp hinst,
    power_of_two_ladder_between_length p.maxModelBatchSize
      (p.maxModelBatchSize + 1 - p.minModelBatchSize)
      p.minModelBatchSize hp hle (by omega)]

/-- C1 witness: the configuration of scenario 1 of the spec (max instance
count 5, batch ladder 1..128) emits 5 times 8 plus 1 = 41 candidates. -/
theorem claim1_auto_candidate_count_witness :
    ((1 : Nat) ≤ 1 ∧ (1 : Nat) ≤ 128 ∧ (1 : Nat) ≤ 5) ∧
    ((∀ s : AutoState Unit,
        (start_state_machine
          { maxInstanceCount := 5, maxModelBatchSize := 128,
            minModelBatchSize := 1, cpuOnly := false } s).currInstanceCount = 1) ∧
      (auto_emitted Unit
        { maxInstanceCount := 5, maxModelBatchSize := 128,
          minModelBatchSize := 1, cpuOnly := false } (Nat.le_refl 1)).length =
        5 * (power_of_two_ladder_between 1 128).length + 1) :=
  ⟨⟨by decide, by decide, by decide⟩,
    claim1_auto_candidate_count Unit
      { maxInstanceCount := 5, maxModelBatchSize := 128,
        minModelBatchSize := 1, cpuOnly := false }
      (Nat.le_refl 1) (by decide) (by decide)⟩

/-! ## C8 -/

lemma get_curr_param_combo_started (p : AutoParams) (s : AutoState m)
    (hst : s.stateMachineStarted = true) :
    get_curr_param_combo p s =
      .custom
        [("dynamic_batching", .obj []),
         ("max_batch_size", .num s.currMaxBatchSize),
         ("instance_group",
          .arr [.obj [("count", .num s.currInstanceCount),
                      ("kind", .str p.instanceKind)]])] := by
  simp [get_curr_param_combo, hst]

lemma auto_sweep_all_custom {m : Type} (p : AutoParams) (hp : 1 ≤ p.minModelBatchSize) :
    ∀ (n : Nat) (s : AutoState m) (hbs : 1 ≤ s.currMaxBatchSize)
      (herr : last_results_erroneous s.lastResults = false),
      s.stateMachineStarted = true →
      (p.maxInstanceCount - s.currInstanceCount) * (p.maxModelBatchSize + 2) +
        (p.maxModelBatchSize + 1 - s.currMaxBatchSize) ≤ n →
      ∀ combo ∈ auto_sweep p hp s hbs herr, ∃ items, combo = .custom items := by
  intro n
  induction n with
  | zero =>
      intro s hbs herr hst hm
      have hprod : (p.maxInstanceCount - s.currInstanceCount) *
          (p.maxModelBatchSize + 2) = 0 := by omega
      have hinst0 : p.maxInstanceCount - s.currInstanceCount = 0 := by
        rcases Nat.mul_eq_zero.mp hprod with h | h
        · exact h
        · omega
      have hd : done_walking p s = true := by
        rw [done_walking_iff]
        exact ⟨(done_walking_max_batch_size_iff p s).mpr (Or.inl (by omega)),
          by omega⟩
      rw [auto_sweep_done p hp s hbs herr hd]
      intro combo hc
      rw [List.mem_singleton] at hc
      exact ⟨_, hc.trans (get_curr_param_combo_started p s hst)⟩
  | succ n ih =>
      intro s hbs herr hst hm
      by_cases hd : done_walking p s = true
      · rw [auto_sweep_done p hp s hbs herr hd]
        intro combo hc
        rw [List.mem_singleton] at hc
        exact ⟨_, hc.trans (get_curr_param_combo_started p s hst)⟩
      · have herr2 : last_results_erroneous (step_state_machine p s).lastResults
            = false := by
          rw [step_sm_lastResults]
          exact herr
        rw [auto_sweep_cons p hp s hbs herr hd (step_sm_bs_pos p s hp hbs) herr2]
        intro combo hc
        rcases List.mem_cons.mp hc with hh | ht
        · exact ⟨_, hh.trans (get_curr_param_combo_started p s hst)⟩
        · refine ih (step_state_machine p s) (step_sm_bs_pos p s hp hbs) herr2
            (by rw [step_sm_started]; exact hst) ?_ combo ht
          by_cases hdbs : done_walking_max_batch_size p s = true
          · have hlt : s.currInstanceCount < p.maxInstanceCount := by
              by_contra hge
              exact hd (by rw [done_walking_iff]; exact ⟨hdbs, by omega⟩)
            have hstep := step_state_machine_of_exhausted p s hdbs
            have hfi : (step_state_machine p s).currInstanceCount =
                s.currInstanceCount + 1 := by rw [hstep]
            have hfb : (step_state_machine p s).currMaxBatchSize =
                p.minModelBatchSize := by rw [hstep]
            obtain ⟨q, hq⟩ : ∃ q,
                p.maxInstanceCount - s.currInstanceCount = q + 1 :=
              ⟨p.maxInstanceCount - s.currInstanceCount - 1, by omega⟩
            have hq2 : p.maxInstanceCount - (s.currInstanceCount + 1) = q := by
              omega
            have hexp : (q + 1) * (p.maxModelBatchSize + 2) =
                q * (p.maxModelBatchSize + 2) + (p.maxModelBatchSize + 2) := by
              ring
            rw [hfi, hfb, hq2]
            rw [hq, hexp] at hm
            omega
          · have hnb : p.maxModelBatchSize ≥ s.currMaxBatchSize * 2 := by
              by_contra hnb
              exact hdbs ((done_walking_max_batch_size_iff p s).mpr
                (Or.inl (by omega)))
            have hstep := step_state_machine_of_not_exhausted p s
              (by cases h : done_walking_max_batch_size p s
                  · rfl
                  · exact absurd h hdbs)
            have hfi : (step_state_machine p s).currInstanceCount =
                s.currInstanceCount := by rw [hstep]
            have hfb : (step_state_machine p s).currMaxBatchSize =
                s.currMaxBatchSize * 2 := by rw [hstep]
            rw [hfi, hfb]
            omega

lemma name_trace_all_custom (base : String) :
    ∀ (combos : List ParamCombo) (k : Nat),
      (∀ c ∈ combos, ∃ items, c = ParamCombo.custom items) →
      name_trace base k combos =
        (List.range' k combos.length).map (ConfigName.indexedName base) := by
  intro combos
  induction combos with
  | nil => intro k _; rfl
  | cons c rest ih =>
      intro k h
      obtain ⟨items, rfl⟩ := h c (by simp)
      simp only [name_trace, get_model_variant_name, List.length_cons,
        List.range'_succ, List.map_cons]
      rw [ih (k + 1) fun c hc => h c (by simp [hc])]

/-- C8: within one model, the automatic generator emits pairwise distinct
variant names: the default probe (emitted first) is named with the default
suffix and every following candidate gets the next index, starting at 0
and increasing by one per non-default emission; hence the name list is
duplicate free. -/
theorem claim8_variant_names_distinct (base : String) (m : Type)
    (p : AutoParams) (hp : 1 ≤ p.minModelBatchSize) :
    name_trace base 0 (auto_emitted m p hp) =
      ConfigName.defaultName base ::
        (List.range ((auto_emitted m p hp).length - 1)).map
          (ConfigName.indexedName base) ∧
    (name_trace base 0 (auto_emitted m p hp)).Nodup := by
  have hstarted : (auto_step p ({ initialAutoState m with live := true })
      : AutoState m).stateMachineStarted = true := by
    rw [auto_step_initial]
  have hcust := auto_sweep_all_custom p hp
    ((p.maxInstanceCount -
        (auto_step p ({ initialAutoState m with live := true })).currInstanceCount) *
          (p.maxModelBatchSize + 2) +
      (p.maxModelBatchSize + 1 -
        (auto_step p ({ initialAutoState m with live := true })).currMaxBatchSize))
    (auto_step p ({ initialAutoState m with live := true }))
    (by rw [auto_step_initial]; exact hp)
    (by rw [auto_step_initial]; simp [last_results_erroneous])
    hstarted (Nat.le_refl _)
  have hmain : name_trace base 0 (auto_emitted m p hp) =
      ConfigName.defaultName base ::
        (List.range ((auto_emitted m p hp).length - 1)).map
          (ConfigName.indexedName base) := by
    have hd0 : get_curr_param_combo p
        ({ initialAutoState m with live := true } : AutoState m) =
        ParamCombo.defaultCombo := rfl
    unfold auto_emitted
    rw [hd0]
    simp only [name_trace, get_model_variant_name, List.length_cons,
      Nat.add_sub_cancel]
    rw [name_trace_all_custom base _ 0 hcust, List.range_eq_range']
  refine ⟨hmain, ?_⟩
  rw [hmain]
  refine List.nodup_cons.mpr ⟨?_, ?_⟩
  · intro hmem
    obtain ⟨k, _, hk⟩ := List.mem_map.mp hmem
    cases hk
  · refine List.Nodup.map ?_ (List.nodup_range _)
    intro a b hab
    injection hab

/-- C8 witness: instantiated at the scenario 1 configuration. -/
theorem claim8_variant_names_distinct_witness :
    ((1 : Nat) ≤ 1) ∧
    (name_trace "my-model" 0
        (auto_emitted Unit
          { maxInstanceCount := 5, maxModelBatchSize := 128,
            minModelBatchSize := 1, cpuOnly := false } (Nat.le_refl 1)) =
      ConfigName.defaultName "my-model" ::
        (List.range
          ((auto_emitted Unit
            { maxInstanceCount := 5, maxModelBatchSize := 128,
              minModelBatchSize := 1, cpuOnly := false }
            (Nat.le_refl 1)).length - 1)).map
          (ConfigName.indexedName "my-model") ∧
      (name_trace "my-model" 0
        (auto_emitted Unit
          { maxInstanceCount := 5, maxModelBatchSize := 128,
            minModelBatchSize := 1, cpuOnly := false }
          (Nat.le_refl 1))).Nodup) :=
  ⟨by decide,
    claim8_variant_names_distinct "my-model" Unit
      { maxInstanceCount := 5, maxModelBatchSize := 128,
        minModelBatchSize := 1, cpuOnly := false } (Nat.le_refl 1)⟩

end ModelAnalyzer
